import Mathlib

/-!
Verification of `logger.go` from perfect1337/logger: a structured-logging
facade over zap with Gin (HTTP) and gRPC request interceptors.

The Go source is shallowly embedded below. Functions of the zap library
(an external collaborator of this repository) that the source calls —
`zapcore.Level.UnmarshalText`, `zap.NewProductionEncoderConfig`,
`zap.NewDevelopmentEncoderConfig`, `zap.Config.Build`, `zap.NewProduction`,
`SugaredLogger.With/Named` — are modelled from what the zap library
does, with file-sink opening (a filesystem effect) modelled as
succeeding; `Build` fails exactly when the requested encoding is not a
registered encoder ("json" or "console").
-/

deriving instance DecidableEq for Except

namespace LoggerGo

/-- The ordered zapcore severity levels. -/
inductive Level where
  | debug
  | info
  | warn
  | error
  | dpanic
  | panic
  | fatal
deriving DecidableEq, Repr

/-- One pass of the zapcore level parser `Level.unmarshalText`: exact match on the
recognised spellings (the empty string is accepted as Info). -/
def unmarshalTextOnce (s : String) : Option Level :=
  match s with
  | "debug" | "DEBUG" => some .debug
  | "info" | "INFO" | "" => some .info
  | "warn" | "WARN" => some .warn
  | "error" | "ERROR" => some .error
  | "dpanic" | "DPANIC" => some .dpanic
  | "panic" | "PANIC" => some .panic
  | "fatal" | "FATAL" => some .fatal
  | _ => none

/-- ASCII lowercasing, as `bytes.ToLower` applies it to the level names
(all recognised spellings are ASCII). -/
def asciiLower (s : String) : String :=
  String.mk (s.data.map
    (fun c => if c.isUpper then Char.ofNat (c.toNat + 32) else c))

/-- The zapcore parser `Level.UnmarshalText`: tries the text as given, then
lowercased; `none` models the "unrecognized level" error. -/
def levelUnmarshalText (s : String) : Option Level :=
  (unmarshalTextOnce s).orElse (fun _ => unmarshalTextOnce (asciiLower s))

/-- Level encoders relevant to this code (zapcore). -/
inductive LevelEncoder where
  | lowercase
  | capital
  | capitalColor
  | lowercaseColor
deriving DecidableEq, Repr

/-- Time encoders relevant to this code (zapcore). -/
inductive TimeEncoder where
  | epoch
  | iso8601
deriving DecidableEq, Repr

/-- Duration encoders relevant to this code (zapcore). -/
inductive DurationEncoder where
  | seconds
  | string
deriving DecidableEq, Repr

/-- The parts of `zapcore.EncoderConfig` this code sets or selects. -/
structure EncoderConfig where
  timeKey : String
  levelKey : String
  nameKey : String
  callerKey : String
  messageKey : String
  stacktraceKey : String
  encodeLevel : LevelEncoder
  encodeTime : TimeEncoder
  encodeDuration : DurationEncoder
deriving DecidableEq, Repr

/-- The zap preset `NewProductionEncoderConfig`: machine-oriented field names,
lowercase levels, epoch timestamps. -/
def newProductionEncoderConfig : EncoderConfig :=
  { timeKey := "ts"
    levelKey := "level"
    nameKey := "logger"
    callerKey := "caller"
    messageKey := "msg"
    stacktraceKey := "stacktrace"
    encodeLevel := .lowercase
    encodeTime := .epoch
    encodeDuration := .seconds }

/-- The zap preset `NewDevelopmentEncoderConfig`: short human-oriented field names,
capital levels, ISO-8601 timestamps. -/
def newDevelopmentEncoderConfig : EncoderConfig :=
  { timeKey := "T"
    levelKey := "L"
    nameKey := "N"
    callerKey := "C"
    messageKey := "M"
    stacktraceKey := "S"
    encodeLevel := .capital
    encodeTime := .iso8601
    encodeDuration := .string }

/-- Closed variant over the field values the logging calls in this file
pass (Design-note style: string, int, duration, error, bool). -/
inductive Value where
  | str (s : String)
  | int (n : Int)
  | dur (d : Int)
  | err (e : String)
  | bool (b : Bool)
deriving DecidableEq, Repr

/-- The `Logger` wrapper around `zap.SugaredLogger`: the state zap keeps
for it — minimum level, encoder configuration, sinks, standing fields
accumulated by `With`, and the hierarchical name. -/
structure Logger where
  level : Level
  encoderConfig : EncoderConfig
  outputPaths : List String
  errorOutputPaths : List String
  context : List (String × Value)
  name : String
deriving DecidableEq, Repr

/-- The `Config` struct of logger.go. -/
structure Config where
  logLevel : String
  development : Bool
  encoding : String
  outputPaths : List String
deriving DecidableEq, Repr

/-- The fields of `zap.Config` that `New` assembles (sampling, caller and
stacktrace switches carry no content relevant to the claims). -/
structure ZapConfig where
  level : Level
  development : Bool
  encoding : String
  encoderConfig : EncoderConfig
  outputPaths : List String
  errorOutputPaths : List String
deriving DecidableEq, Repr

/-- The encoder names registered with zap by default. -/
def registeredEncodings : List String := ["json", "console"]

/-- The zap builder `Config.Build`, as it bears on this code: constructing the
encoder fails when the encoding name is not registered; opening the sinks
is modelled as succeeding (stderr always opens; file sinks are a
filesystem effect outside the embedding). -/
def zapBuild (zc : ZapConfig) : Except String Logger :=
  if zc.encoding ∈ registeredEncodings then
    .ok { level := zc.level
          encoderConfig := zc.encoderConfig
          outputPaths := zc.outputPaths
          errorOutputPaths := zc.errorOutputPaths
          context := []
          name := "" }
  else
    .error ("no encoder registered for name " ++ zc.encoding)

/-- `New` of logger.go: default the encoding to "json", parse the level
text (starting from Info and failing hard on unrecognised text), pick the
production or development encoder preset, override its time encoder to
ISO-8601 and its level encoder to capital color, assemble the zap config
with stderr appended to the output paths and stderr alone as error
output, and build. -/
def New (cfg : Config) : Except String Logger :=
  let encoding := if cfg.encoding = "" then "json" else cfg.encoding
  match levelUnmarshalText cfg.logLevel with
  | none => .error ("unrecognized level: " ++ cfg.logLevel)
  | some logLevel =>
    let base := if cfg.development then newDevelopmentEncoderConfig
                else newProductionEncoderConfig
    let encoderConfig :=
      { base with encodeTime := .iso8601, encodeLevel := .capitalColor }
    let zapConfig : ZapConfig :=
      { level := logLevel
        development := cfg.development
        encoding := encoding
        encoderConfig := encoderConfig
        outputPaths := cfg.outputPaths ++ ["stderr"]
        errorOutputPaths := ["stderr"] }
    zapBuild zapConfig

/-- The zap constructor `NewProduction`: build the production config (Info level, json
encoding, production encoder preset, stderr sink). -/
def newProduction : Except String Logger :=
  zapBuild
    { level := .info
      development := false
      encoding := "json"
      encoderConfig := newProductionEncoderConfig
      outputPaths := ["stderr"]
      errorOutputPaths := ["stderr"] }

/-- `NewDefault` of logger.go: `zap.NewProduction()` with the error
discarded. In Go a build error would leave the wrapped `*zap.Logger` nil
(an unusable instance that panics on use); that outcome is modelled as
`none`. -/
def NewDefault : Option Logger := newProduction.toOption

/-- `With` of logger.go: a new `Logger` wrapping
`l.SugaredLogger.With(fields...)`; zap appends the fields to the
standing context of a clone and leaves the receiver untouched. The
alternating
variadic key/value list is embedded as its paired form. -/
def Logger.With (l : Logger) (fields : List (String × Value)) : Logger :=
  { l with context := l.context ++ fields }

/-- `Named` of logger.go: zap appends a dot-separated name segment on a
clone. -/
def Logger.Named (l : Logger) (n : String) : Logger :=
  { l with name := if l.name = "" then n else l.name ++ "." ++ n }

/-- One structured record as a facade call (`Infow`, `Errorw`, ...)
produces it: severity, message, then the standing fields of the instance
followed by the call-site fields. -/
structure Record where
  level : Level
  msg : String
  fields : List (String × Value)
deriving DecidableEq, Repr

/-- The record a leveled sugared call on `l` emits. -/
def Logger.record (l : Logger) (lvl : Level) (msg : String)
    (kvs : List (String × Value)) : Record :=
  { level := lvl, msg := msg, fields := l.context ++ kvs }

/-- The gin request/response state the interceptor reads: request URL
parts and headers, the final status of the writer, and the per-request
accumulated error list (`c.Errors`, here as the error strings that
`c.Errors.Errors()` yields). -/
structure GinContext where
  method : String
  urlPath : String
  rawQuery : String
  clientIP : String
  userAgent : String
  status : Int
  errors : List String
deriving DecidableEq, Repr

/-- The key/value list every record of the gin middleware carries:
status, method, the pre-handler path and raw query, client IP, user
agent and latency. -/
def ginKvs (c2 : GinContext) (path query : String)
    (latency : Int) : List (String × Value) :=
  [("status", .int c2.status),
   ("method", .str c2.method),
   ("path", .str path),
   ("query", .str query),
   ("ip", .str c2.clientIP),
   ("user-agent", .str c2.userAgent),
   ("latency", .dur latency)]

/-- `GinLogger` of logger.go, applied to one request: capture path and
raw query before `c.Next()`, run the handler chain (which may rewrite
the context), then — with the elapsed latency supplied by the clock —
emit one Error record per accumulated error, or a single Info record
when no error accumulated. Returns the post-handler context and the
emitted records. -/
def GinLogger (log : Logger) (handler : GinContext → GinContext)
    (c : GinContext) (latency : Int) : GinContext × List Record :=
  let path := c.urlPath
  let query := c.rawQuery
  let c2 := handler c
  let kvs := ginKvs c2 path query latency
  if c2.errors.length > 0 then
    (c2, c2.errors.map (fun e => log.record .error e kvs))
  else
    (c2, [log.record .info "HTTP request" kvs])

/-- `GRPCLoggingInterceptor` of logger.go, applied to one unary call:
invoke the handler on the context and request, then — with the elapsed
duration supplied by the clock — emit one Error record (method,
duration, error) when the handler errored, else one Info record
(method, duration); finally return the response and error of the handler.
Returns that pair together with the emitted records. -/
def GRPCLoggingInterceptor {Resp Ctx Req : Type}
    (log : Logger) (fullMethod : String)
    (handler : Ctx → Req → Resp × Option String)
    (ctx : Ctx) (req : Req) (dur : Int) :
    (Resp × Option String) × List Record :=
  let r := handler ctx req
  match r with
  | (resp, some e) =>
    ((resp, some e),
     [log.record .error "gRPC request failed"
        [("method", .str fullMethod), ("duration", .dur dur),
         ("error", .err e)]])
  | (resp, none) =>
    ((resp, none),
     [log.record .info "gRPC request"
        [("method", .str fullMethod), ("duration", .dur dur)]])

/-- A Go context as `WithContext` sees it: `none` is a nil context;
otherwise an association of keys to dynamically typed values, with
`ctxValue` modelling `ctx.Value`. -/
def ctxValue (m : List (String × Value)) (k : String) : Option Value :=
  (m.find? (fun p => p.1 = k)).map (fun p => p.2)

/-- `WithContext` of logger.go: on a nil context return the receiver;
otherwise look up "request_id" and, when the comma-ok string assertion
succeeds, derive via `With`; in every other case return the receiver. -/
def Logger.WithContext (l : Logger)
    (ctx : Option (List (String × Value))) : Logger :=
  match ctx with
  | none => l
  | some m =>
    match ctxValue m "request_id" with
    | some (.str reqID) => l.With [("request_id", .str reqID)]
    | _ => l

/-- A concrete instance used to exercise the theorems: what `zapBuild`
returns for the production configuration. -/
def sampleLogger : Logger :=
  { level := .info
    encoderConfig := newProductionEncoderConfig
    outputPaths := ["stderr"]
    errorOutputPaths := ["stderr"]
    context := []
    name := "" }

/-- The logger that `New` hands back when level parsing and the build
both succeed, as a function of the configuration and the parsed level
(established against `New` by `New_ok_iff` below). -/
def builtLogger (cfg : Config) (lvl : Level) : Logger :=
  { level := lvl
    encoderConfig :=
      { (if cfg.development then newDevelopmentEncoderConfig
         else newProductionEncoderConfig) with
        encodeTime := .iso8601, encodeLevel := .capitalColor }
    outputPaths := cfg.outputPaths ++ ["stderr"]
    errorOutputPaths := ["stderr"]
    context := []
    name := "" }

/-- Characterisation of `New`: it succeeds exactly when the level text
parses and the defaulted encoding is registered, and then returns
`builtLogger`. -/
theorem New_ok_iff (cfg : Config) (l : Logger) :
    New cfg = .ok l ↔
      ∃ lvl, levelUnmarshalText cfg.logLevel = some lvl ∧
        (if cfg.encoding = "" then "json" else cfg.encoding)
          ∈ registeredEncodings ∧
        l = builtLogger cfg lvl := by
  cases hl : levelUnmarshalText cfg.logLevel with
  | none => simp [New, hl]
  | some lvl =>
    simp only [New, hl, zapBuild]
    by_cases he : (if cfg.encoding = "" then "json" else cfg.encoding)
        ∈ registeredEncodings
    · rw [if_pos he]
      constructor
      · intro h
        injection h with h
        subst h
        exact ⟨lvl, rfl, he, rfl⟩
      · rintro ⟨lvl2, hlvl2, -, rfl⟩
        injection hlvl2 with hlvl2
        subst hlvl2
        rfl
    · rw [if_neg he]
      simp [hl, he]

/-- `New` on unparsable level text returns the zap parse error. -/
theorem New_err_of_level (cfg : Config)
    (h : levelUnmarshalText cfg.logLevel = none) :
    New cfg = .error ("unrecognized level: " ++ cfg.logLevel) := by
  simp [New, h]

/-- The success half of claim C1 as stated: a recognised level text alone
already guarantees that `New` succeeds. -/
def newSucceedsAtParsedLevel : Prop :=
  ∀ (cfg : Config) (lvl : Level),
    levelUnmarshalText cfg.logLevel = some lvl →
    ∃ l, New cfg = .ok l ∧ l.level = lvl

/-- C1: the claim as stated is too strong — a configuration with the
recognised level "info" but the unregistered encoding "xml" makes `New`
fail even though the level text names a known severity. -/
theorem C1_counterexample : ¬ newSucceedsAtParsedLevel := by
  intro h
  obtain ⟨l, hl, -⟩ := h ⟨"info", false, "xml", []⟩ .info (by decide)
  have he : New ⟨"info", false, "xml", []⟩ =
      .error "no encoder registered for name xml" := by decide
  rw [he] at hl
  exact Except.noConfusion hl

/-- C1 (amended): for every configuration whose level text names a known
severity and whose defaulted encoding is registered with the engine,
`New` succeeds and the minimum severity of the returned logger is the
parsed level; for every configuration whose level text names no known
severity, `New` fails with an error and returns no logger. -/
theorem C1_new_level_parsing (cfg : Config) :
    (∀ lvl : Level, levelUnmarshalText cfg.logLevel = some lvl →
      (if cfg.encoding = "" then "json" else cfg.encoding)
        ∈ registeredEncodings →
      ∃ l, New cfg = .ok l ∧ l.level = lvl) ∧
    (levelUnmarshalText cfg.logLevel = none →
      (∃ e, New cfg = .error e) ∧ ∀ l, New cfg ≠ .ok l) := by
  constructor
  · intro lvl hlvl henc
    exact ⟨builtLogger cfg lvl,
      (New_ok_iff cfg _).mpr ⟨lvl, hlvl, henc, rfl⟩, rfl⟩
  · intro hnone
    refine ⟨⟨_, New_err_of_level cfg hnone⟩, fun l hl => ?_⟩
    obtain ⟨lvl, hlvl, -, -⟩ := (New_ok_iff cfg l).mp hl
    rw [hnone] at hlvl
    exact Option.noConfusion hlvl

/-- Witness for C1: at the valid level "debug" with empty encoding,
`New` yields a Debug-level logger; at the unknown level "bogus", `New`
yields no logger. -/
theorem C1_new_level_parsing_witness :
    (∃ l, New ⟨"debug", false, "", []⟩ = .ok l ∧ l.level = .debug) ∧
    (∀ l, New ⟨"bogus", false, "", []⟩ ≠ .ok l) :=
  ⟨(C1_new_level_parsing ⟨"debug", false, "", []⟩).1 .debug
      (by decide) (by decide),
   ((C1_new_level_parsing ⟨"bogus", false, "", []⟩).2 (by decide)).2⟩

/-- C3: the logger `New` builds always carries the configured output
paths with "stderr" appended as its output sinks, and exactly ["stderr"]
as its error-output sinks. -/
theorem C3_sink_merging (cfg : Config) (l : Logger) (h : New cfg = .ok l) :
    l.outputPaths = cfg.outputPaths ++ ["stderr"] ∧
    l.errorOutputPaths = ["stderr"] := by
  obtain ⟨lvl, -, -, rfl⟩ := (New_ok_iff cfg l).mp h
  exact ⟨rfl, rfl⟩

/-- Witness for C3: a configuration with the single sink "app.log" yields
a logger whose sinks are ["app.log", "stderr"] and whose error sinks are
["stderr"]. -/
theorem C3_sink_merging_witness :
    ∃ l, New ⟨"warn", false, "", ["app.log"]⟩ = .ok l ∧
      l.outputPaths = ["app.log"] ++ ["stderr"] ∧
      l.errorOutputPaths = ["stderr"] :=
  ⟨_, rfl, C3_sink_merging ⟨"warn", false, "", ["app.log"]⟩ _ rfl⟩

/-- Claim C2 as stated: the production preset would keep its own
(machine-oriented) level encoder, with colorized level names appearing
only through the development preset; ISO-8601 timestamps in both. -/
def encoderPresetClaim : Prop :=
  ∀ (cfg : Config) (l : Logger), New cfg = .ok l →
    l.encoderConfig =
      if cfg.development then
        { newDevelopmentEncoderConfig with
          encodeTime := .iso8601, encodeLevel := .capitalColor }
      else
        { newProductionEncoderConfig with encodeTime := .iso8601 }

/-- C2: the claim as stated fails — with the development flag false the
built logger still carries the colorized capital level encoder, because
the code overrides `EncodeLevel` unconditionally. -/
theorem C2_counterexample : ¬ encoderPresetClaim := by
  intro h
  have h2 := h ⟨"info", false, "", []⟩ (builtLogger ⟨"info", false, "", []⟩ .info)
    (by decide)
  exact absurd h2 (by decide)

/-- C2 (amended): the development flag selects between the production and
development field-naming presets, and in both cases the time encoder is
overridden to ISO-8601 and the level encoder to colorized capital level
names. -/
theorem C2_encoder_preset (cfg : Config) (l : Logger) (h : New cfg = .ok l) :
    l.encoderConfig =
      { (if cfg.development then newDevelopmentEncoderConfig
         else newProductionEncoderConfig) with
        encodeTime := .iso8601, encodeLevel := .capitalColor } := by
  obtain ⟨lvl, -, -, rfl⟩ := (New_ok_iff cfg l).mp h
  rfl

/-- Witness for C2: in development mode the built logger carries the
development keys with ISO-8601 time and colorized capital levels. -/
theorem C2_encoder_preset_witness :
    ∃ l, New ⟨"info", true, "console", []⟩ = .ok l ∧
      l.encoderConfig =
        { newDevelopmentEncoderConfig with
          encodeTime := .iso8601, encodeLevel := .capitalColor } :=
  ⟨_, rfl, C2_encoder_preset ⟨"info", true, "console", []⟩ _ rfl⟩

/-- C8: `NewDefault` succeeds unconditionally — the production build
whose error it discards cannot fail (json encoding is registered and the
stderr sink always opens), so a concrete usable logger is returned. -/
theorem C8_new_default_total :
    NewDefault = some sampleLogger ∧ (NewDefault.map Logger.level) = some .info := by
  constructor <;> rfl

/-- C9: the empty level text is accepted by the zapcore parser as Info,
so a configuration with an empty level never fails level parsing and any
logger `New` returns for it has minimum severity Info. -/
theorem C9_empty_level_default (cfg : Config) (h : cfg.logLevel = "") :
    levelUnmarshalText cfg.logLevel = some .info ∧
    ∀ l, New cfg = .ok l → l.level = .info := by
  rw [h]
  refine ⟨rfl, fun l hl => ?_⟩
  obtain ⟨lvl, hlvl, -, rfl⟩ := (New_ok_iff cfg l).mp hl
  rw [h] at hlvl
  injection hlvl with hlvl
  rw [← hlvl]
  rfl

/-- Witness for C9: the all-empty configuration parses to Info and the
logger it builds has minimum severity Info. -/
theorem C9_empty_level_default_witness :
    (levelUnmarshalText "" = some .info) ∧
    ∃ l, New ⟨"", false, "", []⟩ = .ok l ∧ l.level = .info :=
  ⟨(C9_empty_level_default ⟨"", false, "", []⟩ rfl).1,
   ⟨_, rfl, (C9_empty_level_default ⟨"", false, "", []⟩ rfl).2 _ rfl⟩⟩

/-- C5: the gRPC interceptor returns exactly the response and error the
wrapped handler produced, emits exactly one Error record carrying the
full method name, the duration and the error detail when the handler
errored, and exactly one Info record carrying the full method name and
the duration when it did not. -/
theorem C5_grpc_interceptor {Resp Ctx Req : Type} (log : Logger)
    (fullMethod : String) (handler : Ctx → Req → Resp × Option String)
    (ctx : Ctx) (req : Req) (dur : Int) :
    (GRPCLoggingInterceptor log fullMethod handler ctx req dur).1 =
      handler ctx req ∧
    (∀ e, (handler ctx req).2 = some e →
      (GRPCLoggingInterceptor log fullMethod handler ctx req dur).2 =
        [log.record .error "gRPC request failed"
          [("method", .str fullMethod), ("duration", .dur dur),
           ("error", .err e)]]) ∧
    ((handler ctx req).2 = none →
      (GRPCLoggingInterceptor log fullMethod handler ctx req dur).2 =
        [log.record .info "gRPC request"
          [("method", .str fullMethod), ("duration", .dur dur)]]) := by
  rcases hr : handler ctx req with ⟨resp, err⟩
  cases err with
  | none =>
    refine ⟨?_, ?_, ?_⟩
    · simp [GRPCLoggingInterceptor, hr]
    · intro e he
      exact Option.noConfusion he
    · intro h
      simp [GRPCLoggingInterceptor, hr]
  | some e0 =>
    refine ⟨?_, ?_, ?_⟩
    · simp [GRPCLoggingInterceptor, hr]
    · intro e he
      injection he with he
      subst he
      simp [GRPCLoggingInterceptor, hr]
    · intro h
      exact Option.noConfusion h

/-- Witness for C5: a succeeding handler returning 7 passes 7 through
with one Info record, and a failing handler passes its error through
with one Error record. -/
theorem C5_grpc_interceptor_witness :
    (GRPCLoggingInterceptor sampleLogger "/svc/Method"
        (fun (_ : Unit) (_ : Unit) => ((7 : Nat), none)) () () 3).2 =
      [sampleLogger.record .info "gRPC request"
        [("method", .str "/svc/Method"), ("duration", .dur 3)]] ∧
    (GRPCLoggingInterceptor sampleLogger "/svc/Method"
        (fun (_ : Unit) (_ : Unit) => ((7 : Nat), some "boom")) () () 3).2 =
      [sampleLogger.record .error "gRPC request failed"
        [("method", .str "/svc/Method"), ("duration", .dur 3),
         ("error", .err "boom")]] :=
  ⟨(C5_grpc_interceptor sampleLogger "/svc/Method"
      (fun _ _ => ((7 : Nat), none)) () () 3).2.2 rfl,
   (C5_grpc_interceptor sampleLogger "/svc/Method"
      (fun _ _ => ((7 : Nat), some "boom")) () () 3).2.1 "boom" rfl⟩

/-- C7: `WithContext` derives via `With` exactly when the context is
non-nil and carries a string under "request_id" — the derived instance
then stamps that id on every subsequent record — and returns the
receiver unchanged on a nil context or one lacking the key. -/
theorem C7_with_context (l : Logger)
    (ctx : Option (List (String × Value))) :
    (∀ m s, ctx = some m → ctxValue m "request_id" = some (.str s) →
      l.WithContext ctx = l.With [("request_id", .str s)] ∧
      ∀ lvl msg kvs, ("request_id", Value.str s)
        ∈ ((l.WithContext ctx).record lvl msg kvs).fields) ∧
    (ctx = none → l.WithContext ctx = l) ∧
    (∀ m, ctx = some m → ctxValue m "request_id" = none →
      l.WithContext ctx = l) := by
  refine ⟨?_, ?_, ?_⟩
  · rintro m s rfl hv
    have hwc : l.WithContext (some m) = l.With [("request_id", .str s)] := by
      simp only [Logger.WithContext, hv]
    refine ⟨hwc, fun lvl msg kvs => ?_⟩
    rw [hwc]
    simp [Logger.With, Logger.record]
  · rintro rfl
    rfl
  · rintro m rfl hv
    simp only [Logger.WithContext, hv]

/-- Witness for C7: a context carrying request_id "abc" yields the
derived logger whose records carry the id; a nil context and a context
without the key return the receiver. -/
theorem C7_with_context_witness :
    (sampleLogger.WithContext (some [("request_id", .str "abc")]) =
      sampleLogger.With [("request_id", .str "abc")]) ∧
    (sampleLogger.WithContext none = sampleLogger) ∧
    (sampleLogger.WithContext (some [("user", .str "u")]) = sampleLogger) :=
  ⟨((C7_with_context sampleLogger (some [("request_id", .str "abc")])).1
      [("request_id", .str "abc")] "abc" rfl (by decide)).1,
   (C7_with_context sampleLogger none).2.1 rfl,
   (C7_with_context sampleLogger (some [("user", .str "u")])).2.2
      [("user", .str "u")] rfl (by decide)⟩

/-- C10: when the context carries a non-string value under "request_id",
the comma-ok type assertion fails and `WithContext` totally returns the
receiver unchanged. -/
theorem C10_with_context_nonstring (l : Logger)
    (m : List (String × Value)) (v : Value)
    (hv : ctxValue m "request_id" = some v) (hs : ∀ s, v ≠ .str s) :
    l.WithContext (some m) = l := by
  simp only [Logger.WithContext, hv]
  cases v with
  | str s => exact absurd rfl (hs s)
  | int n => rfl
  | dur d => rfl
  | err e => rfl
  | bool b => rfl

/-- Witness for C10: a context carrying the integer 42 under
"request_id" leaves the receiver unchanged. -/
theorem C10_with_context_nonstring_witness :
    sampleLogger.WithContext (some [("request_id", .int 42)]) =
      sampleLogger :=
  C10_with_context_nonstring sampleLogger [("request_id", .int 42)]
    (.int 42) (by decide) (fun s h => Value.noConfusion h)

/-- C4: when the handler chain leaves the error list empty, the gin
middleware emits exactly one Info record and no Error record; when it
leaves errors, one Error record per error and no Info record; every
emitted record carries status, method, pre-handler path and query,
client IP, user agent and latency. -/
theorem C4_gin_records (log : Logger) (handler : GinContext → GinContext)
    (c : GinContext) (latency : Int) :
    ((handler c).errors = [] →
      (GinLogger log handler c latency).2.countP
          (fun r => r.level == Level.info) = 1 ∧
      (GinLogger log handler c latency).2.countP
          (fun r => r.level == Level.error) = 0) ∧
    ((handler c).errors ≠ [] →
      (GinLogger log handler c latency).2.countP
          (fun r => r.level == Level.error) = (handler c).errors.length ∧
      (GinLogger log handler c latency).2.countP
          (fun r => r.level == Level.info) = 0) ∧
    (∀ r ∈ (GinLogger log handler c latency).2,
      ("status", Value.int (handler c).status) ∈ r.fields ∧
      ("method", Value.str (handler c).method) ∈ r.fields ∧
      ("path", Value.str c.urlPath) ∈ r.fields ∧
      ("query", Value.str c.rawQuery) ∈ r.fields ∧
      ("ip", Value.str (handler c).clientIP) ∈ r.fields ∧
      ("user-agent", Value.str (handler c).userAgent) ∈ r.fields ∧
      ("latency", Value.dur latency) ∈ r.fields) := by
  refine ⟨fun hc => ?_, fun hc => ?_, fun r hr => ?_⟩
  · have hg : (GinLogger log handler c latency).2 =
        [log.record .info "HTTP request"
          (ginKvs (handler c) c.urlPath c.rawQuery latency)] := by
      simp [GinLogger, hc]
    rw [hg]
    simp [Logger.record]
  · have hg : (GinLogger log handler c latency).2 =
        (handler c).errors.map (fun e => log.record .error e
          (ginKvs (handler c) c.urlPath c.rawQuery latency)) := by
      have hpos : (handler c).errors.length > 0 :=
        List.length_pos.mpr hc
      simp [GinLogger, hpos]
    rw [hg, List.countP_map, List.countP_map]
    constructor
    · simp [Logger.record, Function.comp]
    · simp [Logger.record, Function.comp]
  · have hf : r.fields = log.context ++
        ginKvs (handler c) c.urlPath c.rawQuery latency := by
      by_cases hc : (handler c).errors.length > 0
      · simp only [GinLogger, if_pos hc, List.mem_map] at hr
        obtain ⟨e, -, rfl⟩ := hr
        rfl
      · simp only [GinLogger, if_neg hc, List.mem_singleton] at hr
        rw [hr]
        rfl
    rw [hf]
    refine ⟨?_, ?_, ?_, ?_, ?_, ?_, ?_⟩ <;>
      exact List.mem_append_right _ (by simp [ginKvs])

/-- Witness for C4: an error-free request yields one Info and no Error
record; a request with two accumulated errors yields two Error and no
Info records; record fields include the request metadata. -/
theorem C4_gin_records_witness :
    ((GinLogger sampleLogger (fun c => { c with status := 200 })
        { method := "GET", urlPath := "/foo", rawQuery := "x=1",
          clientIP := "1.2.3.4", userAgent := "curl", status := 0,
          errors := [] } 5).2.countP
        (fun r => r.level == Level.info) = 1 ∧
     (GinLogger sampleLogger (fun c => { c with status := 200 })
        { method := "GET", urlPath := "/foo", rawQuery := "x=1",
          clientIP := "1.2.3.4", userAgent := "curl", status := 0,
          errors := [] } 5).2.countP
        (fun r => r.level == Level.error) = 0) ∧
    ((GinLogger sampleLogger (fun c => { c with errors := ["e1", "e2"] })
        { method := "GET", urlPath := "/foo", rawQuery := "x=1",
          clientIP := "1.2.3.4", userAgent := "curl", status := 500,
          errors := [] } 5).2.countP
        (fun r => r.level == Level.error) = 2 ∧
     (GinLogger sampleLogger (fun c => { c with errors := ["e1", "e2"] })
        { method := "GET", urlPath := "/foo", rawQuery := "x=1",
          clientIP := "1.2.3.4", userAgent := "curl", status := 500,
          errors := [] } 5).2.countP
        (fun r => r.level == Level.info) = 0) :=
  ⟨(C4_gin_records sampleLogger (fun c => { c with status := 200 })
      { method := "GET", urlPath := "/foo", rawQuery := "x=1",
        clientIP := "1.2.3.4", userAgent := "curl", status := 0,
        errors := [] } 5).1 rfl,
   (C4_gin_records sampleLogger (fun c => { c with errors := ["e1", "e2"] })
      { method := "GET", urlPath := "/foo", rawQuery := "x=1",
        clientIP := "1.2.3.4", userAgent := "curl", status := 500,
        errors := [] } 5).2.1 (by decide)⟩

/-- Claim C6 as stated: for any instance whatsoever, the records of the
doubly derived instance contain both fields and the records of the
receiver contain neither. -/
def withChainClaim : Prop :=
  ∀ (l : Logger) (lvl : Level) (msg : String)
    (kvs : List (String × Value)),
    ("k", Value.str "v") ∈
      (((l.With [("k", .str "v")]).With [("k2", .str "v2")]).record
        lvl msg kvs).fields ∧
    ("k2", Value.str "v2") ∈
      (((l.With [("k", .str "v")]).With [("k2", .str "v2")]).record
        lvl msg kvs).fields ∧
    ("k", Value.str "v") ∉ (l.record lvl msg kvs).fields ∧
    ("k2", Value.str "v2") ∉ (l.record lvl msg kvs).fields

/-- C6: the claim as stated fails on a receiver that already carries
k=v — such an instance (obtained from any logger by `With`) keeps
emitting k=v on its own records. -/
theorem C6_counterexample : ¬ withChainClaim := by
  intro h
  exact (h (sampleLogger.With [("k", .str "v")]) .info "m" []).2.2.1
    (by decide)

/-- C6 (amended): for any instance whose standing fields and whose
per-call fields do not already use the keys k and k2, the doubly derived
instance stamps both fields on every record while the receiver — left
unchanged by the derivations — emits records containing neither. -/
theorem C6_with_immutability (l : Logger) (lvl : Level) (msg : String)
    (kvs : List (String × Value))
    (hctx : ∀ p ∈ l.context, p.1 ≠ "k" ∧ p.1 ≠ "k2")
    (hkvs : ∀ p ∈ kvs, p.1 ≠ "k" ∧ p.1 ≠ "k2") :
    ("k", Value.str "v") ∈
      (((l.With [("k", .str "v")]).With [("k2", .str "v2")]).record
        lvl msg kvs).fields ∧
    ("k2", Value.str "v2") ∈
      (((l.With [("k", .str "v")]).With [("k2", .str "v2")]).record
        lvl msg kvs).fields ∧
    ("k", Value.str "v") ∉ (l.record lvl msg kvs).fields ∧
    ("k2", Value.str "v2") ∉ (l.record lvl msg kvs).fields := by
  refine ⟨?_, ?_, ?_, ?_⟩
  · simp [Logger.With, Logger.record]
  · simp [Logger.With, Logger.record]
  · intro hmem
    simp only [Logger.record] at hmem
    rcases List.mem_append.mp hmem with h1 | h2
    · exact (hctx _ h1).1 rfl
    · exact (hkvs _ h2).1 rfl
  · intro hmem
    simp only [Logger.record] at hmem
    rcases List.mem_append.mp hmem with h1 | h2
    · exact (hctx _ h1).2 rfl
    · exact (hkvs _ h2).2 rfl

/-- Witness for C6: on a fresh production logger, the doubly derived
instance emits both fields and the receiver emits neither. -/
theorem C6_with_immutability_witness :
    ("k", Value.str "v") ∈
      (((sampleLogger.With [("k", .str "v")]).With
        [("k2", .str "v2")]).record .info "m" []).fields ∧
    ("k2", Value.str "v2") ∈
      (((sampleLogger.With [("k", .str "v")]).With
        [("k2", .str "v2")]).record .info "m" []).fields ∧
    ("k", Value.str "v") ∉ (sampleLogger.record .info "m" []).fields ∧
    ("k2", Value.str "v2") ∉ (sampleLogger.record .info "m" []).fields :=
  C6_with_immutability sampleLogger .info "m" [] (by decide) (by decide)

end LoggerGo
